import Mathlib

/-!
Verification of the NebulaCore plugin isolation and supervision subsystem.

This file gives a shallow embedding of the plugin manager, capability
context, RPC client adapter and sandboxed worker entrypoint found in
`nebula_core/core/plugin_manager.py`, `plugin_api_v1.py`,
`plugin_grpc_client.py` and `plugin_runner.py`, and proves properties of
that embedding.

Modelling conventions:
* Python strings become `String`; `str.strip()` becomes `py_strip`
  (whitespace-stripping at both ends),
  `str.lower()` becomes a per-character ASCII lowering (`py_lower`,
  matching `Char.toLower`), and Python string truthiness (`s or d`)
  becomes `py_or`.
* Exception-raising code becomes `Except`-returning functions; a raised
  exception leaves the caller-visible state at its pre-call value, which
  the embedding makes explicit by returning the state alongside the
  `Except` result.
* Wall-clock timestamps (used by the client cool-down window) become `ℚ`.
* Effects decided by the operating system or by the plugin itself
  (process liveness, OOM-kill counters, RPC outcomes, respawn success)
  become explicit oracle parameters of the step functions.
* Log lines, human-readable `message`/`error` bookkeeping strings of
  `PluginRecord`, and `updated_at` timestamps are omitted from the record
  state machine: no verified property reads them.  The sqlite layer is
  modelled as in-memory association lists keyed the way the code keys its
  connections and rows.
-/

deriving instance DecidableEq for Except

namespace NebulaSpec

/-! ### Python string helpers -/

/-- Python truthiness fallback `s or d` for strings. -/
def py_or (s d : String) : String := if s = "" then d else s

/-- Python `str.lower()` restricted to ASCII, applied per character
(matching `Char.toLower`). -/
def py_lower (s : String) : String := String.mk (s.data.map Char.toLower)

/-- Python `str.strip()`: drop whitespace from both ends. -/
def py_strip (s : String) : String :=
  String.mk (((s.data.dropWhile Char.isWhitespace).reverse.dropWhile
    Char.isWhitespace).reverse)

/-- Python `str.strip(chars)` on an explicit character list: drop the
given characters from both ends. -/
def strip_chars (l : List Char) (cs : List Char) : List Char :=
  ((l.dropWhile (fun c => cs.contains c)).reverse.dropWhile (fun c => cs.contains c)).reverse

/-! ### Scopes and manifests (`plugin_api_v1.py`) -/

/-- `PLUGIN_API_VERSION = "v1"`. -/
def PLUGIN_API_VERSION : String := "v1"

/-- The fixed scope allow-list `ALLOWED_SCOPES`. -/
def ALLOWED_SCOPES : List String :=
  ["users.read", "users.write", "roles.read", "roles.write",
   "identity_tags.read", "identity_tags.write", "events.emit"]

/-- Plugin source kinds used by the manager. -/
inductive Source
  | in_process
  | process
  | grpc
deriving DecidableEq, Repr

/-- Error taxonomy of the subsystem: `PluginError`,
`PluginPermissionError` and Python `ValueError` (raised by the db-name
normalizer). -/
inductive PErr
  | plugin (msg : String)
  | permission (msg : String)
  | value (msg : String)
deriving DecidableEq, Repr

/-- Message carried by an error. -/
def PErr.msg : PErr → String
  | PErr.plugin m => m
  | PErr.permission m => m
  | PErr.value m => m

/-- The `PluginManifest` dataclass. -/
structure PluginManifest where
  name : String
  version : String := "0.1.0"
  description : String := ""
  scopes : List String := []
  api_version : String := PLUGIN_API_VERSION
  source : Source := Source.in_process
deriving DecidableEq, Repr

/-- `PluginManifest.sanitized_scopes`: declared scopes filtered by the
allow-list. -/
def PluginManifest.sanitized_scopes (m : PluginManifest) : List String :=
  m.scopes.filter (fun s => ALLOWED_SCOPES.contains s)

/-- A JSON value inside the `scopes` array of a parsed `plugin.json`:
either a string or some non-string value. -/
inductive JVal
  | str (s : String)
  | other
deriving DecidableEq, Repr

/-- A parsed `plugin.json` document (the post-`json.loads` dict level;
`none` fields model absent keys, and a `scopes` key whose value is not a
list is modelled as `none` exactly as the code treats it). -/
structure RawManifest where
  scopes : Option (List JVal) := none
  api_version : Option String := none
  version : Option String := none
  description : Option String := none
deriving Repr

/-- The string entries of the declared `scopes` list. -/
def raw_scope_strings (raw : RawManifest) : List String :=
  (raw.scopes.getD []).filterMap (fun v =>
    match v with
    | JVal.str s => some s
    | JVal.other => none)

/-- `str(raw.get("api_version") or PLUGIN_API_VERSION).strip() or
PLUGIN_API_VERSION`. -/
def effective_api_version (raw : RawManifest) : String :=
  py_or (py_strip (py_or (raw.api_version.getD "") PLUGIN_API_VERSION)) PLUGIN_API_VERSION

/-- `PluginManager._load_manifest` (body shared with
`PluginWorker._load_manifest`): filter declared scopes by the allow-list,
then reject any unsupported `api_version`. -/
def load_manifest (name : String) (raw : RawManifest) (source : Source) :
    Except PErr PluginManifest :=
  let scopes := (raw_scope_strings raw).filter (fun s => ALLOWED_SCOPES.contains s)
  let api_version := effective_api_version raw
  if api_version ≠ PLUGIN_API_VERSION then
    Except.error (PErr.plugin ("Unsupported plugin api_version: " ++ api_version))
  else
    Except.ok { name := name,
                version := py_or (raw.version.getD "") "0.1.0",
                description := raw.description.getD "",
                scopes := scopes,
                api_version := api_version,
                source := source }

/-! ### Plugin records and the health state machine (`plugin_manager.py`) -/

/-- The `PLUGIN_STATE_*` constants. -/
inductive Status
  | initialized
  | healthy
  | degraded
  | unresponsive
  | crashed
  | disabled
deriving DecidableEq, Repr

/-- The fields of the `PluginRecord` that `_scan_process_plugins` fills
in for one directory entry. -/
structure ScanRecord where
  name : String
  source : Source
  manifest : PluginManifest
  status : Status
  message : String
  error : String
deriving DecidableEq, Repr

/-- One directory entry of `PluginManager._scan_process_plugins` (a
valid slug name with a `plugin.py` present): load the manifest; on a
manifest error register a degraded record without attempting a start,
otherwise attempt the worker start (its success given by the `start_ok`
oracle).  The `Bool` reports whether a worker start was attempted. -/
def scan_process_entry (name : String) (raw : RawManifest) (start_ok : Bool) :
    ScanRecord × Bool :=
  match load_manifest name raw Source.process with
  | Except.error e =>
      ({ name := name, source := Source.process,
         manifest := { name := name, source := Source.process },
         status := Status.degraded, message := "invalid manifest",
         error := e.msg }, false)
  | Except.ok m =>
      if start_ok then
        ({ name := name, source := Source.process, manifest := m,
           status := Status.initialized, message := "initialized", error := "" }, true)
      else
        ({ name := name, source := Source.process, manifest := m,
           status := Status.crashed, message := "process plugin start failed",
           error := "start failed" }, true)

/-- The supervision-relevant fields of `PluginRecord`. -/
structure PRec where
  status : Status
  source : Source
  consecutive_timeouts : Nat := 0
  consecutive_health_failures : Nat := 0
  consecutive_crashes : Nat := 0
  restart_count : Nat := 0
deriving DecidableEq, Repr

/-- The manager thresholds read from config (each clamped to at least 1
by `PluginManager.__init__`). -/
structure ManagerCfg where
  max_restarts : Nat := 3
  max_crashes : Nat := 3
  timeout_restart_threshold : Nat := 3
  health_restart_threshold : Nat := 2
deriving DecidableEq, Repr

/-- A Python value returned by a plugin call, as far as the manager
inspects it (`isinstance(data, dict)`). -/
inductive PyVal
  | dict (entries : List (String × String))
  | str (s : String)
  | pynone
deriving DecidableEq, Repr

/-- `isinstance(data, dict)`. -/
def PyVal.is_dict : PyVal → Bool
  | PyVal.dict _ => true
  | _ => false

/-- `PluginManager._mark_crashed`: bump the crash counter, mark the
record crashed, and disable it once the counter reaches `max_crashes`. -/
def mark_crashed (cfg : ManagerCfg) (r : PRec) : PRec :=
  let r := { r with consecutive_crashes := r.consecutive_crashes + 1,
                    status := Status.crashed }
  if cfg.max_crashes ≤ r.consecutive_crashes then
    { r with status := Status.disabled }
  else r

/-- `PluginManager._maybe_restart`.  The `restart_ok` oracle tells
whether the respawn performed by `_start_process_plugin` succeeds; the
returned `Nat` counts restart attempts actually made (entries into the
respawn branch). -/
def maybe_restart (cfg : ManagerCfg) (restart_ok : Bool) (r : PRec) : PRec × Nat :=
  if r.source ≠ Source.process then (r, 0)
  else if r.status = Status.disabled then (r, 0)
  else if cfg.max_restarts ≤ r.restart_count then
    ({ r with status := Status.disabled }, 0)
  else
    let r := { r with restart_count := r.restart_count + 1 }
    if restart_ok then
      ({ r with status := Status.initialized,
                consecutive_timeouts := 0,
                consecutive_health_failures := 0 }, 1)
    else
      (mark_crashed cfg r, 1)

/-- `PluginManager._handle_timeout`. -/
def handle_timeout (cfg : ManagerCfg) (restart_ok : Bool) (r : PRec) : PRec × Nat :=
  let r := { r with consecutive_timeouts := r.consecutive_timeouts + 1,
                    status := Status.degraded }
  if cfg.timeout_restart_threshold ≤ r.consecutive_timeouts then
    maybe_restart cfg restart_ok r
  else (r, 0)

/-- Outcome of the `_invoke` inside `_safe_call`. -/
inductive CallOutcome
  | ok (v : PyVal)
  | timed_out
  | failed (msg : String)
deriving DecidableEq, Repr

/-- `PluginManager._safe_call`.  `oom` is the value of
`_is_oom_killed`, `alive` the value of `_is_process_alive` (held fixed
across the call), `outcome` the result of `_invoke`.  Returns the
updated record, the number of restart attempts made and the value
returned to the caller. -/
def safe_call (cfg : ManagerCfg) (oom alive restart_ok : Bool)
    (outcome : CallOutcome) (r : PRec) : PRec × Nat × Except PErr PyVal :=
  if r.status = Status.disabled then
    (r, 0, Except.error (PErr.plugin "Plugin is disabled"))
  else
    let step1 : PRec × Nat :=
      if r.source = Source.process ∧ oom = true then
        maybe_restart cfg restart_ok (mark_crashed cfg r)
      else (r, 0)
    let r1 := step1.1
    let step2 : PRec × Nat :=
      if r1.source = Source.process ∧ alive = false then
        maybe_restart cfg restart_ok (mark_crashed cfg r1)
      else (r1, 0)
    let r2 := step2.1
    match outcome with
    | CallOutcome.ok v =>
        ({ r2 with status := Status.healthy,
                   consecutive_timeouts := 0,
                   consecutive_health_failures := 0 },
         step1.2 + step2.2, Except.ok v)
    | CallOutcome.timed_out =>
        let step3 := handle_timeout cfg restart_ok r2
        (step3.1, step1.2 + step2.2 + step3.2,
         Except.error (PErr.plugin "Plugin call timed out"))
    | CallOutcome.failed msg =>
        if r2.source = Source.process ∧ alive = false then
          let step3 := maybe_restart cfg restart_ok (mark_crashed cfg r2)
          (step3.1, step1.2 + step2.2 + step3.2, Except.error (PErr.plugin msg))
        else
          ({ r2 with status := Status.degraded },
           step1.2 + step2.2, Except.error (PErr.plugin msg))

/-- Outcome of the `_invoke` inside `_health_check`: the plugin either
returned a value or raised. -/
inductive HealthOutcome
  | value (v : PyVal)
  | raised (msg : String)
deriving DecidableEq, Repr

/-- `PluginManager._health_check`.  Returns the updated record and the
number of restart attempts made. -/
def health_check (cfg : ManagerCfg) (oom alive restart_ok : Bool)
    (outcome : HealthOutcome) (r : PRec) : PRec × Nat :=
  if r.status = Status.disabled then (r, 0)
  else if r.source = Source.process ∧ oom = true then
    maybe_restart cfg restart_ok (mark_crashed cfg r)
  else if r.source = Source.process ∧ alive = false then
    maybe_restart cfg restart_ok (mark_crashed cfg r)
  else
    let success := match outcome with
      | HealthOutcome.value v => v.is_dict
      | HealthOutcome.raised _ => false
    if success then
      ({ r with consecutive_health_failures := 0, status := Status.healthy }, 0)
    else
      let r := { r with consecutive_health_failures := r.consecutive_health_failures + 1,
                        status := Status.degraded }
      if cfg.health_restart_threshold ≤ r.consecutive_health_failures then
        maybe_restart cfg restart_ok { r with status := Status.unresponsive }
      else (r, 0)

/-- A run of `n` caller-triggered calls that all hit their deadline
(`_safe_call` with a timeout outcome, live process, no OOM), returning
the final record and the total number of restart attempts. -/
def timeout_run (cfg : ManagerCfg) (restart_ok : Bool) : Nat → PRec → PRec × Nat
  | 0, r => (r, 0)
  | Nat.succ n, r =>
      let s := safe_call cfg false true restart_ok CallOutcome.timed_out r
      let rest := timeout_run cfg restart_ok n s.1
      (rest.1, s.2.1 + rest.2)

/-! ### The RPC client adapter (`plugin_grpc_client.py`) -/

/-- The mutable state of a `GrpcPluginClient`: whether a channel is
open, and the `_disabled_until` cool-down deadline (wall-clock seconds,
modelled as `ℚ`; initially `0.0`). -/
structure ClientState where
  channel_open : Bool := false
  disabled_until : ℚ := 0
deriving DecidableEq, Repr

/-- Result of the network RPC itself, as decided by the environment. -/
inductive NetOutcome
  | ok (d : List (String × String))
  | fail
deriving DecidableEq, Repr

/-- `GrpcPluginClient.health`.  Returns the value handed back to the
adapter, the successor state, and whether a network attempt was made.
`now` is `time.time()`; `_can_attempt` is `now ≥ disabled_until`; on
failure `_mark_failure` sets the cool-down to `now + 10.0` and closes
the channel. -/
def client_health (now : ℚ) (outcome : NetOutcome) (st : ClientState) :
    Option (List (String × String)) × ClientState × Bool :=
  if now < st.disabled_until then (none, st, false)
  else
    let st := { st with channel_open := true }
    match outcome with
    | NetOutcome.ok d => (some d, st, true)
    | NetOutcome.fail => (none, { channel_open := false, disabled_until := now + 10 }, true)

/-- `GrpcPluginClient.sync_users` (the payload does not influence the
breaker logic). -/
def client_sync_users (now : ℚ) (payload : List (String × String))
    (outcome : NetOutcome) (st : ClientState) :
    Option (List (String × String)) × ClientState × Bool :=
  if now < st.disabled_until then (none, st, false)
  else
    let st := { st with channel_open := true }
    match outcome with
    | NetOutcome.ok d => (some d, st, true)
    | NetOutcome.fail => (none, { channel_open := false, disabled_until := now + 10 }, true)

/-- `GrpcPluginAdapter.health`: `data or {"status": "unreachable"}` on
top of the client result (an empty dict is falsy in Python). -/
def adapter_health (client_result : Option (List (String × String))) : PyVal :=
  match client_result with
  | some d => if d.isEmpty then PyVal.dict [("status", "unreachable")] else PyVal.dict d
  | none => PyVal.dict [("status", "unreachable")]

/-! ### The capability context (`PluginContext`) -/

/-- A stored user row (`users` table). -/
structure UserRow where
  id : Nat
  username : String
  email : Option String
  password_hash : String
  is_active : Bool
  is_staff : Bool
deriving DecidableEq, Repr

/-- A `user_identity_tags` row. -/
structure TagRow where
  db_name : String
  username : String
  role_tag : String
  updated_by : String
deriving DecidableEq, Repr

/-- An `identity_roles` row. -/
structure RoleRow where
  name : String
  description : Option String
  is_staff : Bool
  updated_by : String
deriving DecidableEq, Repr

/-- The host state touched through the capability context: the system
and client user databases (keyed as the code keys its connections, with
`"system.db"` for the system store), the identity-tag and identity-role
tables of the system store, the event-bus log, and the next sqlite
rowid. -/
structure HostState where
  user_dbs : List (String × List UserRow) := []
  identity_tags : List TagRow := []
  identity_roles : List RoleRow := []
  events : List (String × List (String × String)) := []
  next_user_id : Nat := 1
deriving DecidableEq, Repr

/-- The identity of a `PluginContext`: plugin name, granted scopes, and
whether an event bus was supplied. -/
structure Ctx where
  plugin_name : String
  scopes : List String
  event_bus : Bool := true
deriving DecidableEq, Repr

/-- `PluginContext.require_scope`. -/
def require_scope (ctx : Ctx) (scope : String) : Except PErr Unit :=
  if scope ∈ ctx.scopes then Except.ok ()
  else Except.error (PErr.permission
    ("Plugin " ++ ctx.plugin_name ++ " lacks scope " ++ scope))

/-- Association-list read of a user database (a missing database reads
as freshly created / empty). -/
def db_lookup (dbs : List (String × List UserRow)) (key : String) : List UserRow :=
  match dbs.find? (fun kv => kv.1 == key) with
  | some kv => kv.2
  | none => []

/-- Association-list write of a user database. -/
def db_store (dbs : List (String × List UserRow)) (key : String)
    (rows : List UserRow) : List (String × List UserRow) :=
  match dbs with
  | [] => [(key, rows)]
  | kv :: rest =>
      if kv.1 == key then (key, rows) :: rest else kv :: db_store rest key rows

/-- The `INSERT ... ON CONFLICT(db_name, username) DO UPDATE` upsert on
`user_identity_tags`. -/
def upsert_tag (tags : List TagRow) (db u role updater : String) : List TagRow :=
  if tags.any (fun t => t.db_name == db && t.username == u) then
    tags.map (fun t =>
      if t.db_name == db && t.username == u then
        { t with role_tag := role, updated_by := updater }
      else t)
  else tags ++ [⟨db, u, role, updater⟩]

/-- The `INSERT ... ON CONFLICT(name) DO UPDATE` upsert on
`identity_roles`. -/
def upsert_role (roles : List RoleRow) (name : String)
    (description : Option String) (staff : Bool) (updater : String) : List RoleRow :=
  if roles.any (fun t => t.name == name) then
    roles.map (fun t =>
      if t.name == name then
        { t with description := description, is_staff := staff, updated_by := updater }
      else t)
  else roles ++ [⟨name, description, staff, updater⟩]

/-- Whether a character list contains two consecutive dots (Python
`".." in raw`). -/
def has_dotdot : List Char → Bool
  | '.' :: '.' :: _ => true
  | _ :: rest => has_dotdot rest
  | [] => false

/-- Whether a string ends in the literal `.db`. -/
def ends_with_db (s : String) : Bool :=
  match s.data.reverse with
  | 'b' :: 'd' :: '.' :: _ => true
  | _ => false

/-- A character of the `[a-zA-Z0-9_.-]` class of `_DB_NAME_RE`. -/
def db_name_char (c : Char) : Bool :=
  c.isAlphanum || c = '_' || c = '.' || c = '-'

/-- Full match against
`_DB_NAME_RE = ^[a-zA-Z0-9][a-zA-Z0-9_.-]{0,63}\.db$`: a leading
alphanumeric, at most 63 further class characters, a `.db` suffix
(overall length between 4 and 67, every character in the class). -/
def db_name_re_match (s : String) : Bool :=
  ends_with_db s && decide (4 ≤ s.data.length) && decide (s.data.length ≤ 67) &&
  (match s.data with
   | [] => false
   | c :: _ => c.isAlphanum) &&
  s.data.all db_name_char

/-- `db.normalize_client_db_name` (the live `nebula_core/db/__init__.py`
package, the one `plugin_manager.py` imports): strip, reject empty
names, separators and traversal, append `.db` when absent, reserve
`system.db`, and check `_DB_NAME_RE`. -/
def normalize_client_db_name (db_name : String) : Except PErr String :=
  let raw := py_strip db_name
  if raw = "" then Except.error (PErr.value "Database name is required")
  else if raw.data.any (fun c => c = '/' || c = '\\') || has_dotdot raw.data then
    Except.error (PErr.value "Invalid database name")
  else
    let raw := if ends_with_db raw then raw else raw ++ ".db"
    if raw = "system.db" then Except.error (PErr.value "system.db is reserved")
    else if db_name_re_match raw then Except.ok raw
    else Except.error (PErr.value "Invalid database name format")

/-- `PluginContext._normalize_db_name`. -/
def normalize_db_name (db_name : String) : Except PErr String :=
  let raw := py_or (py_strip (py_or db_name "system.db")) "system.db"
  if raw = "system.db" then Except.ok raw
  else normalize_client_db_name raw

/-- A role-token character kept verbatim by `_normalize_role_token`
(`ch.isalnum() or ch in ("-", "_")`). -/
def role_char_keep (c : Char) : Bool := c.isAlphanum || c == '-' || c == '_'

/-- `PluginContext._normalize_role_token`: strip, lower-case, replace
every unsafe character by `-`, strip `-`/`_` from both ends, default to
`user`. -/
def normalize_role_token (role_tag : String) : String :=
  let token := py_lower (py_strip role_tag)
  let mapped := token.data.map (fun c => if role_char_keep c then c else '-')
  py_or (String.mk (strip_chars mapped ['-', '_'])) "user"

/-- An ASCII upper-case letter (the only characters `str.lower()`
rewrites in the modelled ASCII fragment). -/
def is_ascii_upper (c : Char) : Bool :=
  decide (65 ≤ c.toNat) && decide (c.toNat ≤ 90)

/-- A character acceptable in a fully normalized role token: an
alphanumeric that is not upper-case, a dash, or an underscore. -/
def role_char_ok (c : Char) : Bool :=
  (c.isAlphanum && ! is_ascii_upper c) || c == '-' || c == '_'

/-- The normalization property claimed of stored identifiers:
lower-cased and drawn from the safe character set. -/
def role_token_normalized (s : String) : Bool := s.data.all role_char_ok

/-- The database key `_sync_user_blocking` connects to: the system store
for `system.db` (or a falsy name), otherwise the client database named
by `normalize_client_db_name` (via `get_client_db`), which may raise. -/
def sync_db_key (db_name : String) : Except PErr String :=
  let clean_db := py_or (py_strip (py_or db_name "system.db")) "system.db"
  if clean_db = "system.db" then Except.ok "system.db"
  else normalize_client_db_name clean_db

/-- Result of `sync_user`. -/
structure SyncResult where
  action : String
  username : String
  db_name : String
  role_tag : String
  user_id : Nat
deriving DecidableEq, Repr

/-- `PluginContext._sync_user_blocking` (the `fresh_hash` parameter
stands for the hash of the freshly generated random password). -/
def sync_user_blocking (ctx : Ctx) (st : HostState)
    (username db_name role_tag email : String) (is_active : Bool)
    (fresh_hash : String) : Except PErr SyncResult × HostState :=
  let clean_username := (py_strip username)
  if clean_username = "" then
    (Except.error (PErr.plugin "username is required"), st)
  else
    let clean_db := py_or (py_strip (py_or db_name "system.db")) "system.db"
    let clean_role := py_or (py_lower (py_strip (py_or role_tag "user"))) "user"
    let clean_email := if py_strip email = "" then none else some (py_strip email)
    match sync_db_key db_name with
    | Except.error e => (Except.error e, st)
    | Except.ok db_key =>
        let rows := db_lookup st.user_dbs db_key
        let upd : List UserRow × Nat × String × Nat :=
          match rows.find? (fun row => row.username == clean_username) with
          | some row =>
              (rows.map (fun q =>
                 if q.username == clean_username then
                   { q with email := clean_email, is_active := is_active }
                 else q),
               row.id, "updated", st.next_user_id)
          | none =>
              (rows ++ [{ id := st.next_user_id, username := clean_username,
                          email := clean_email, password_hash := fresh_hash,
                          is_active := is_active, is_staff := false }],
               st.next_user_id, "created", st.next_user_id + 1)
        let st := { st with user_dbs := db_store st.user_dbs db_key upd.1,
                            next_user_id := upd.2.2.2 }
        let st := { st with identity_tags :=
          (upsert_tag st.identity_tags clean_db clean_username clean_role
            ("plugin:" ++ ctx.plugin_name)) }
        (Except.ok { action := upd.2.2.1, username := clean_username,
                     db_name := clean_db, role_tag := clean_role,
                     user_id := upd.2.1 }, st)

/-- `PluginContext.sync_user`: both scopes are checked before any work
is dispatched. -/
def sync_user (ctx : Ctx) (st : HostState)
    (username db_name role_tag email : String) (is_active : Bool)
    (fresh_hash : String) : Except PErr SyncResult × HostState :=
  match require_scope ctx "users.write" with
  | Except.error e => (Except.error e, st)
  | Except.ok _ =>
      match require_scope ctx "identity_tags.write" with
      | Except.error e => (Except.error e, st)
      | Except.ok _ =>
          sync_user_blocking ctx st username db_name role_tag email is_active fresh_hash

/-- A row of the `list_users` result (user columns joined with the role
tag). -/
structure UserListed where
  id : Nat
  username : String
  email : Option String
  is_staff : Bool
  is_active : Bool
  role_tag : String
deriving DecidableEq, Repr

/-- Result of `list_users`. -/
structure UsersPage where
  db_name : String
  count : Nat
  items : List UserListed
deriving DecidableEq, Repr

/-- `PluginContext.list_users` and its blocking body: scope checks, db
normalization, clamped paging, read of the user rows ordered by
username, joined with the identity tags of that db. -/
def list_users (ctx : Ctx) (st : HostState) (db_name : String)
    (limit offs : Int) : Except PErr UsersPage × HostState :=
  match require_scope ctx "users.read" with
  | Except.error e => (Except.error e, st)
  | Except.ok _ =>
  match require_scope ctx "identity_tags.read" with
  | Except.error e => (Except.error e, st)
  | Except.ok _ =>
  match normalize_db_name db_name with
  | Except.error e => (Except.error e, st)
  | Except.ok clean_db =>
      let safe_limit := (max 1 (min limit 2000)).toNat
      let safe_offset := (max 0 offs).toNat
      let rows := ((db_lookup st.user_dbs clean_db).mergeSort
          (fun a b => a.username ≤ b.username)).drop safe_offset |>.take safe_limit
      let items := rows.map (fun row =>
        let tag := match st.identity_tags.find? (fun t =>
            t.db_name == clean_db && t.username == row.username) with
          | some t => t.role_tag
          | none => if row.is_staff then "admin" else "user"
        { id := row.id, username := row.username, email := row.email,
          is_staff := row.is_staff, is_active := row.is_active, role_tag := tag })
      (Except.ok { db_name := clean_db, count := items.length, items := items }, st)

/-- `PluginContext.list_identity_roles`. -/
def list_identity_roles (ctx : Ctx) (st : HostState) :
    Except PErr (List RoleRow) × HostState :=
  match require_scope ctx "roles.read" with
  | Except.error e => (Except.error e, st)
  | Except.ok _ =>
      (Except.ok ((st.identity_roles).mergeSort (fun a b => a.name ≤ b.name)), st)

/-- Result of `upsert_identity_role`. -/
structure RoleUpserted where
  status : String
  name : String
  is_staff : Bool
deriving DecidableEq, Repr

/-- `PluginContext.upsert_identity_role`. -/
def upsert_identity_role (ctx : Ctx) (st : HostState) (name description : String)
    (staff : Bool) : Except PErr RoleUpserted × HostState :=
  match require_scope ctx "roles.write" with
  | Except.error e => (Except.error e, st)
  | Except.ok _ =>
      let clean_name := normalize_role_token name
      let clean_desc := if py_strip description = "" then none else some (py_strip description)
      (Except.ok { status := "upserted", name := clean_name, is_staff := staff },
       { st with identity_roles :=
           (upsert_role st.identity_roles clean_name clean_desc staff
             ("plugin:" ++ ctx.plugin_name)) })

/-- Result of `set_identity_tag`. -/
structure TagSet where
  status : String
  username : String
  db_name : String
  role_tag : String
deriving DecidableEq, Repr

/-- `PluginContext.set_identity_tag`. -/
def set_identity_tag (ctx : Ctx) (st : HostState) (username db_name role_tag : String) :
    Except PErr TagSet × HostState :=
  match require_scope ctx "identity_tags.write" with
  | Except.error e => (Except.error e, st)
  | Except.ok _ =>
      let clean_username := (py_strip username)
      match normalize_db_name db_name with
      | Except.error e => (Except.error e, st)
      | Except.ok clean_db =>
          let clean_role := normalize_role_token role_tag
          if clean_username = "" then
            (Except.error (PErr.plugin "username is required"), st)
          else
            (Except.ok { status := "updated", username := clean_username,
                         db_name := clean_db, role_tag := clean_role },
             { st with identity_tags :=
                 (upsert_tag st.identity_tags clean_db clean_username clean_role
                   ("plugin:" ++ ctx.plugin_name)) })

/-- Result of `emit_event`. -/
structure Emitted where
  status : String
  event : String
deriving DecidableEq, Repr

/-- `PluginContext.emit_event`: scope check, bus availability, event-name
validation, then publication under the `plugin.<name>.` namespace. -/
def emit_event (ctx : Ctx) (st : HostState) (event_name : String)
    (payload : List (String × String)) : Except PErr Emitted × HostState :=
  match require_scope ctx "events.emit" with
  | Except.error e => (Except.error e, st)
  | Except.ok _ =>
      if ctx.event_bus = false then
        (Except.error (PErr.plugin "Event bus is unavailable"), st)
      else
        let clean_event := py_strip event_name
        if clean_event = "" then
          (Except.error (PErr.plugin "event_name is required"), st)
        else
          let safe_event := "plugin." ++ ctx.plugin_name ++ "." ++ clean_event
          (Except.ok { status := "emitted", event := safe_event },
           { st with events := st.events ++ [(safe_event, payload)] })

/-- Whether a capability-context result is a permission error. -/
def is_perm {α : Type} : Except PErr α → Bool
  | Except.error (PErr.permission _) => true
  | _ => false

/-! ### Worker token authentication (`plugin_runner.py`) -/

/-- The payload of a capability token minted by
`PluginManager._generate_scoped_token`. -/
structure TokenPayload where
  plugin_name : String
  scopes : List String
  exp : Int
  nonce : String
deriving DecidableEq, Repr

/-- Serialization of the token payload (standing for the base64-encoded
compact JSON blob; only string equality of the result is ever used). -/
def serialize_token (p : TokenPayload) : String :=
  "plugin_name=" ++ p.plugin_name ++ ";scopes=" ++ String.intercalate "," p.scopes ++
  ";exp=" ++ toString p.exp ++ ";nonce=" ++ p.nonce

/-- `PluginManager._generate_scoped_token`: sanitized scopes, a 300
second expiry, a fresh nonce. -/
def generate_scoped_token (m : PluginManifest) (now : Int) (nonce : String) : String :=
  serialize_token { plugin_name := m.name, scopes := m.sanitized_scopes,
                    exp := now + 300, nonce := nonce }

/-- `dict(context.invocation_metadata()).get(key)`: on duplicate keys the
last entry wins. -/
def dict_get (md : List (String × String)) (key : String) : Option String :=
  (md.reverse.find? (fun kv => kv.1 == key)).map (fun kv => kv.2)

/-- `PluginService._authorized`: plain string equality between the
presented metadata token and the token passed at launch. -/
def service_authorized (md : List (String × String)) (worker_token : String) : Bool :=
  ((dict_get md "x-nebula-token").getD "") == worker_token

/-- A gRPC reply of the worker service. -/
inductive RpcReply
  | reply (d : List (String × String))
  | abort_unauthenticated
  | abort_unavailable (msg : String)
deriving DecidableEq, Repr

/-- Outcome of the worker-side plugin invocation. -/
inductive WorkerOutcome
  | ok (d : List (String × String))
  | raised (msg : String)
deriving DecidableEq, Repr

/-- `PluginService.Health`: abort `UNAUTHENTICATED` unless the token
matches, then forward the worker result (worker errors abort
`UNAVAILABLE`). -/
def service_health_rpc (md : List (String × String)) (worker_token : String)
    (outcome : WorkerOutcome) : RpcReply :=
  if service_authorized md worker_token then
    match outcome with
    | WorkerOutcome.ok d => RpcReply.reply d
    | WorkerOutcome.raised m => RpcReply.abort_unavailable m
  else RpcReply.abort_unauthenticated

/-- `PluginService.SyncUsers`: same token gate in front of the worker
invocation. -/
def service_sync_users_rpc (md : List (String × String)) (worker_token : String)
    (payload : List (String × String)) (outcome : WorkerOutcome) : RpcReply :=
  if service_authorized md worker_token then
    match outcome with
    | WorkerOutcome.ok d => RpcReply.reply d
    | WorkerOutcome.raised m => RpcReply.abort_unavailable m
  else RpcReply.abort_unauthenticated

/-! ### Helper lemmas -/

/-- `Char.ofNat` of a valid codepoint round-trips through `toNat`. -/
theorem char_toNat_ofNat (n : Nat) (h : n.isValidChar) : (Char.ofNat n).toNat = n := by
  simp [Char.ofNat, h, Char.ofNatAux, Char.toNat, UInt32.toNat, BitVec.toNat_ofNatLt]

/-- ASCII lowering never yields an upper-case letter. -/
theorem toLower_not_upper (c : Char) : is_ascii_upper (Char.toLower c) = false := by
  unfold Char.toLower
  by_cases h : c.toNat ≥ 65 ∧ c.toNat ≤ 90
  · rw [if_pos h]
    have hv : (c.toNat + 32).isValidChar := Or.inl (by omega)
    simp only [is_ascii_upper, char_toNat_ofNat _ hv]
    simp
    omega
  · rw [if_neg h]
    simp only [is_ascii_upper]
    simp
    omega

/-- Membership survives `strip_chars`. -/
theorem mem_of_mem_strip_chars {c : Char} {l cs : List Char}
    (h : c ∈ strip_chars l cs) : c ∈ l := by
  unfold strip_chars at h
  rw [List.mem_reverse] at h
  have h2 := (List.dropWhile_sublist (l := (List.dropWhile (fun c => cs.contains c) l).reverse)
    (p := fun c => cs.contains c)).mem h
  rw [List.mem_reverse] at h2
  exact (List.dropWhile_sublist (l := l) (p := fun c => cs.contains c)).mem h2

/-- Every output of `_normalize_role_token` is lower-cased and drawn
from the safe character set. -/
theorem normalize_role_token_normalized (s : String) :
    role_token_normalized (normalize_role_token s) = true := by
  unfold normalize_role_token role_token_normalized
  by_cases h : String.mk (strip_chars ((py_lower (py_strip s)).data.map
      (fun c => if role_char_keep c then c else '-')) ['-', '_']) = ""
  · rw [py_or, if_pos h]
    decide
  · rw [py_or, if_neg h]
    rw [List.all_eq_true]
    intro c hc
    have hc2 := mem_of_mem_strip_chars hc
    rw [List.mem_map] at hc2
    obtain ⟨c0, hc0, hmap⟩ := hc2
    by_cases hkeep : role_char_keep c0 = true
    · rw [if_pos hkeep] at hmap
      subst hmap
      have hc1 : c0 ∈ (py_strip s).data.map Char.toLower := hc0
      rw [List.mem_map] at hc1
      obtain ⟨c1, _, hlow⟩ := hc1
      have hup : is_ascii_upper c0 = false := by
        rw [← hlow]
        exact toLower_not_upper c1
      simp only [role_char_keep] at hkeep
      rcases Bool.or_eq_true_iff.mp hkeep with hk | hk
      · rcases Bool.or_eq_true_iff.mp hk with hk2 | hk2
        · simp [role_char_ok, hk2, hup]
        · simp [role_char_ok, hk2]
      · simp [role_char_ok, hk]
    · rw [if_neg hkeep] at hmap
      subst hmap
      decide

/-! ### C1: sanitized scopes of a supported-version manifest -/

/-- C1.  For every manifest whose effective `api_version` equals the
supported constant, `_load_manifest` succeeds and the loaded
`sanitized_scopes` are exactly the declared scope strings filtered by
`ALLOWED_SCOPES`; in particular every granted scope lies in the
allow-list. -/
theorem c1_sanitized_scopes (name : String) (raw : RawManifest) (source : Source)
    (h : effective_api_version raw = PLUGIN_API_VERSION) :
    ∃ m, load_manifest name raw source = Except.ok m ∧
      m.sanitized_scopes =
        (raw_scope_strings raw).filter (fun s => ALLOWED_SCOPES.contains s) ∧
      ∀ s ∈ m.sanitized_scopes, s ∈ ALLOWED_SCOPES := by
  simp only [load_manifest, h]
  rw [if_neg (by simp)]
  refine ⟨_, rfl, ?_, ?_⟩
  · simp only [PluginManifest.sanitized_scopes, List.filter_filter]
    simp
  · intro s hs
    simp only [PluginManifest.sanitized_scopes, List.mem_filter] at hs
    exact List.mem_of_elem_eq_true hs.2

/-- A sample manifest for C1: one allowed scope, one unknown scope, one
non-string entry. -/
def raw_c1 : RawManifest :=
  { scopes := some [JVal.str "users.read", JVal.str "bogus", JVal.other],
    api_version := some "v1" }

/-- C1 witness: on `raw_c1` the loaded manifest grants exactly
`["users.read"]`. -/
theorem c1_sanitized_scopes_witness :
    (load_manifest "demo" raw_c1 Source.in_process).map PluginManifest.sanitized_scopes =
      Except.ok ["users.read"] := by
  obtain ⟨m, hm, hs, _⟩ := c1_sanitized_scopes "demo" raw_c1 Source.in_process (by decide)
  rw [hm]
  simp only [Except.map, hs]
  decide

/-! ### C3: unsupported api_version never spawns a worker -/

/-- C3.  A manifest whose effective `api_version` differs from the
supported constant makes `_load_manifest` fail with a manifest
`PluginError`, and the scan registers a degraded (`invalid manifest`)
record without attempting any worker start. -/
theorem c3_bad_api_version_no_spawn (name : String) (raw : RawManifest) (start_ok : Bool)
    (h : effective_api_version raw ≠ PLUGIN_API_VERSION) :
    load_manifest name raw Source.process =
      Except.error (PErr.plugin ("Unsupported plugin api_version: " ++
        effective_api_version raw)) ∧
    (scan_process_entry name raw start_ok).2 = false ∧
    (scan_process_entry name raw start_ok).1.status = Status.degraded ∧
    (scan_process_entry name raw start_ok).1.message = "invalid manifest" := by
  have hl : load_manifest name raw Source.process =
      Except.error (PErr.plugin ("Unsupported plugin api_version: " ++
        effective_api_version raw)) := by
    simp only [load_manifest]
    rw [if_pos h]
  refine ⟨hl, ?_, ?_, ?_⟩ <;> simp [scan_process_entry, hl]

/-- C3 witness: a manifest declaring `api_version = "v2"` is rejected
and spawns nothing. -/
theorem c3_bad_api_version_no_spawn_witness :
    (scan_process_entry "demo" { api_version := some "v2" } true).2 = false ∧
    (scan_process_entry "demo" { api_version := some "v2" } true).1.status =
      Status.degraded :=
  ⟨(c3_bad_api_version_no_spawn "demo" { api_version := some "v2" } true
      (by decide)).2.1,
   (c3_bad_api_version_no_spawn "demo" { api_version := some "v2" } true
      (by decide)).2.2.1⟩

/-! ### C4: reaching max_crashes disables; disabled records are inert -/

/-- C4.  `_mark_crashed` disables a record whose crash counter reaches
`max_crashes`; and on a record that is already disabled, a
caller-triggered call (`_safe_call`, hence also its timeout path), a
health check, and a crash-signal restart request (`_maybe_restart`) all
leave the record unchanged and attempt no restart. -/
theorem c4_disabled_terminal (cfg : ManagerCfg) (r rd : PRec)
    (oom alive restart_ok : Bool) (outcome : CallOutcome) (houtcome : HealthOutcome)
    (hmax : cfg.max_crashes ≤ r.consecutive_crashes + 1)
    (hd : rd.status = Status.disabled) :
    (mark_crashed cfg r).status = Status.disabled ∧
    safe_call cfg oom alive restart_ok outcome rd =
      (rd, 0, Except.error (PErr.plugin "Plugin is disabled")) ∧
    health_check cfg oom alive restart_ok houtcome rd = (rd, 0) ∧
    maybe_restart cfg restart_ok rd = (rd, 0) := by
  refine ⟨?_, ?_, ?_, ?_⟩
  · simp [mark_crashed, hmax]
  · simp [safe_call, hd]
  · simp [health_check, hd]
  · by_cases hsrc : rd.source = Source.process <;> simp [maybe_restart, hd, hsrc]

/-- A record with two prior crashes. -/
def rec_two_crashes : PRec :=
  { status := Status.crashed, source := Source.process, consecutive_crashes := 2 }

/-- A disabled process record. -/
def rec_disabled : PRec :=
  { status := Status.disabled, source := Source.process }

/-- C4 witness at the default thresholds: a record with two prior
crashes is disabled by the third, and a disabled record ignores a
crash-signalled call, a health check and a restart request. -/
theorem c4_disabled_terminal_witness :
    (mark_crashed {} rec_two_crashes).status = Status.disabled ∧
    safe_call {} true false true CallOutcome.timed_out rec_disabled =
      (rec_disabled, 0, Except.error (PErr.plugin "Plugin is disabled")) ∧
    health_check {} true false true (HealthOutcome.raised "crash") rec_disabled =
      (rec_disabled, 0) ∧
    maybe_restart {} true rec_disabled = (rec_disabled, 0) :=
  c4_disabled_terminal {} rec_two_crashes rec_disabled true false true
    CallOutcome.timed_out (HealthOutcome.raised "crash") (by decide) (by decide)

/-! ### C10: worker RPC authentication is pure token equality -/

/-- C10.  The worker accepts a `Health` or `SyncUsers` RPC exactly when
the `x-nebula-token` metadata value equals the launch token, and the
expiry embedded in a minted token payload is never consulted: a payload
already past expiry is still accepted whenever the serialized token
matches. -/
theorem c10_token_equality (md : List (String × String)) (tok : String)
    (o o2 : WorkerOutcome) (payload : List (String × String))
    (p : TokenPayload) (now : Int) (hexp : p.exp < now) :
    (service_health_rpc md tok o ≠ RpcReply.abort_unauthenticated ↔
      (dict_get md "x-nebula-token").getD "" = tok) ∧
    (service_sync_users_rpc md tok payload o2 ≠ RpcReply.abort_unauthenticated ↔
      (dict_get md "x-nebula-token").getD "" = tok) ∧
    service_authorized [("x-nebula-token", serialize_token p)] (serialize_token p) =
      true := by
  refine ⟨?_, ?_, ?_⟩
  · by_cases hauth : (dict_get md "x-nebula-token").getD "" = tok
    · simp only [service_health_rpc, service_authorized, hauth]
      simp only [beq_self_eq_true, if_true]
      cases o <;> simp [hauth]
    · simp [service_health_rpc, service_authorized, hauth]
  · by_cases hauth : (dict_get md "x-nebula-token").getD "" = tok
    · simp only [service_sync_users_rpc, service_authorized, hauth]
      simp only [beq_self_eq_true, if_true]
      cases o2 <;> simp [hauth]
    · simp [service_sync_users_rpc, service_authorized, hauth]
  · simp [service_authorized, dict_get]

/-- C10 witness: a token whose embedded expiry is in the past is still
accepted when it matches, and a mismatched token is rejected. -/
theorem c10_token_equality_witness :
    service_authorized
      [("x-nebula-token",
        serialize_token { plugin_name := "demo", scopes := [], exp := 0, nonce := "n" })]
      (serialize_token { plugin_name := "demo", scopes := [], exp := 0, nonce := "n" }) =
      true ∧
    service_health_rpc [("x-nebula-token", "wrong")] "right"
        (WorkerOutcome.ok []) = RpcReply.abort_unauthenticated := by
  constructor
  · exact (c10_token_equality [] "" (WorkerOutcome.ok []) (WorkerOutcome.ok []) []
      { plugin_name := "demo", scopes := [], exp := 0, nonce := "n" } 1
      (by decide)).2.2
  · have h := (c10_token_equality [("x-nebula-token", "wrong")] "right"
      (WorkerOutcome.ok []) (WorkerOutcome.ok []) []
      { plugin_name := "demo", scopes := [], exp := 0, nonce := "n" } 1
      (by decide)).1
    by_contra hne
    exact absurd (h.mp hne) (by decide)

/-! ### C8: breaker cool-down in the RPC client -/

/-- C8.  An attempted-and-failed `health` call closes the channel and
opens a ten-second cool-down window; throughout that window every
further `health` or `sync_users` call returns the unreachable result
(`None`, lifted by the adapter to the unreachable payload) without
touching the network and without changing the client state.  A failed
`sync_users` call produces the same breaker state. -/
theorem c8_breaker_cooldown (st : ClientState) (t tq : ℚ) (o : NetOutcome)
    (payload payload2 : List (String × String))
    (hcan : st.disabled_until ≤ t) (hwin : tq < t + 10) :
    (client_health t NetOutcome.fail st).2.1 =
      { channel_open := false, disabled_until := t + 10 } ∧
    (client_sync_users t payload2 NetOutcome.fail st).2.1 =
      { channel_open := false, disabled_until := t + 10 } ∧
    client_health tq o (client_health t NetOutcome.fail st).2.1 =
      (none, (client_health t NetOutcome.fail st).2.1, false) ∧
    client_sync_users tq payload o (client_health t NetOutcome.fail st).2.1 =
      (none, (client_health t NetOutcome.fail st).2.1, false) ∧
    adapter_health none = PyVal.dict [("status", "unreachable")] := by
  have hnot : ¬ t < st.disabled_until := not_lt.mpr hcan
  have hst : (client_health t NetOutcome.fail st).2.1 =
      { channel_open := false, disabled_until := t + 10 } := by
    simp [client_health, hnot]
  refine ⟨hst, ?_, ?_, ?_, rfl⟩
  · simp [client_sync_users, hnot]
  · rw [hst]
    simp [client_health, hwin]
  · rw [hst]
    simp [client_sync_users, hwin]

/-- C8 witness: a failure at `t = 0` blocks a call at `t = 5` from
reaching the network. -/
theorem c8_breaker_cooldown_witness :
    (client_health 0 NetOutcome.fail {}).2.1 =
      { channel_open := false, disabled_until := 10 } ∧
    client_health 5 (NetOutcome.ok [("status", "ok")])
        (client_health 0 NetOutcome.fail {}).2.1 =
      (none, (client_health 0 NetOutcome.fail {}).2.1, false) := by
  have h := c8_breaker_cooldown {} 0 5 (NetOutcome.ok [("status", "ok")]) [] []
    (by norm_num) (by norm_num)
  exact ⟨by rw [h.1]; norm_num, h.2.2.1⟩

/-! ### C5: exactly one restart at the timeout threshold -/

/-- `_maybe_restart` on a live process record with remaining budget
makes exactly one restart attempt. -/
theorem maybe_restart_attempts (cfg : ManagerCfg) (restart_ok : Bool) (r : PRec)
    (hsrc : r.source = Source.process) (hst : r.status ≠ Status.disabled)
    (hbudget : r.restart_count < cfg.max_restarts) :
    (maybe_restart cfg restart_ok r).2 = 1 := by
  have hb : ¬ cfg.max_restarts ≤ r.restart_count := Nat.not_le.mpr hbudget
  cases restart_ok <;> simp [maybe_restart, hsrc, hst, hb]

/-- On a non-disabled record, a timed-out `_safe_call` with a live,
non-OOM process reduces to `_handle_timeout`. -/
theorem safe_call_timed_out (cfg : ManagerCfg) (restart_ok : Bool) (r : PRec)
    (hst : r.status ≠ Status.disabled) :
    safe_call cfg false true restart_ok CallOutcome.timed_out r =
      ((handle_timeout cfg restart_ok r).1, (handle_timeout cfg restart_ok r).2,
       Except.error (PErr.plugin "Plugin call timed out")) := by
  simp [safe_call, hst]

/-- Attempt count of a run of consecutive timeouts that ends exactly at
the threshold. -/
theorem timeout_run_attempts (cfg : ManagerCfg) (restart_ok : Bool) :
    ∀ (n : Nat) (r : PRec), r.source = Source.process →
      r.status ≠ Status.disabled → r.restart_count < cfg.max_restarts →
      1 ≤ n → r.consecutive_timeouts + n = cfg.timeout_restart_threshold →
      (timeout_run cfg restart_ok n r).2 = 1 := by
  intro n
  induction n with
  | zero => intro r _ _ _ h1 _; omega
  | succ k ih =>
      intro r hsrc hst hbudget _ hsum
      have hstep := safe_call_timed_out cfg restart_ok r hst
      by_cases hk : k = 0
      · subst hk
        have hthr : cfg.timeout_restart_threshold ≤ r.consecutive_timeouts + 1 := by omega
        have hmr := maybe_restart_attempts cfg restart_ok
          { r with consecutive_timeouts := r.consecutive_timeouts + 1,
                   status := Status.degraded }
          (by simpa using hsrc) (by simp) (by simpa using hbudget)
        simp only [timeout_run, hstep]
        simp only [handle_timeout, hthr, if_pos]
        simpa [timeout_run] using hmr
      · have hlt : ¬ cfg.timeout_restart_threshold ≤ r.consecutive_timeouts + 1 := by
          omega
        have hht : handle_timeout cfg restart_ok r =
            ({ r with consecutive_timeouts := r.consecutive_timeouts + 1,
                      status := Status.degraded }, 0) := by
          simp [handle_timeout, hlt]
        have hrest := ih { r with consecutive_timeouts := r.consecutive_timeouts + 1,
                                  status := Status.degraded }
          (by simpa using hsrc) (by simp) (by simpa using hbudget)
          (by omega) (by simp; omega)
        simp only [timeout_run, hstep, hht]
        simpa using hrest

/-- C5.  Starting from a live process record with a zero timeout
counter and remaining restart budget, a run of exactly
`timeout_restart_threshold` consecutive call timeouts triggers exactly
one restart attempt. -/
theorem c5_one_restart_at_threshold (cfg : ManagerCfg) (restart_ok : Bool) (r : PRec)
    (hsrc : r.source = Source.process) (hst : r.status ≠ Status.disabled)
    (ht0 : r.consecutive_timeouts = 0) (hbudget : r.restart_count < cfg.max_restarts)
    (hthr : 1 ≤ cfg.timeout_restart_threshold) :
    (timeout_run cfg restart_ok cfg.timeout_restart_threshold r).2 = 1 :=
  timeout_run_attempts cfg restart_ok cfg.timeout_restart_threshold r hsrc hst hbudget
    hthr (by omega)

/-- A freshly healthy process record. -/
def rec_healthy : PRec := { status := Status.healthy, source := Source.process }

/-- C5 witness at the default threshold of three: three consecutive
timeouts yield exactly one restart attempt (whether or not the respawn
succeeds). -/
theorem c5_one_restart_at_threshold_witness :
    (timeout_run {} true 3 rec_healthy).2 = 1 ∧
    (timeout_run {} false 3 rec_healthy).2 = 1 :=
  ⟨c5_one_restart_at_threshold {} true rec_healthy (by decide) (by decide)
      (by decide) (by decide) (by decide),
   c5_one_restart_at_threshold {} false rec_healthy (by decide) (by decide)
      (by decide) (by decide) (by decide)⟩

/-! ### C6: what a successful call actually resets -/

/-- A degraded record carrying one crash and two timeouts. -/
def rec_c6 : PRec :=
  { status := Status.degraded, source := Source.process,
    consecutive_timeouts := 2, consecutive_crashes := 1 }

/-- C6 counterexample.  After a successful `_safe_call` the record is
healthy but `consecutive_crashes` is still 1, and after a successful
health check `consecutive_timeouts` is still 2 — the claim that all
three failure counters reset to zero is false. -/
theorem c6_counterexample :
    (safe_call {} false true true (CallOutcome.ok (PyVal.dict [])) rec_c6).1.status =
      Status.healthy ∧
    (safe_call {} false true true (CallOutcome.ok (PyVal.dict []))
      rec_c6).1.consecutive_crashes = 1 ∧
    (health_check {} false true true (HealthOutcome.value (PyVal.dict []))
      rec_c6).1.status = Status.healthy ∧
    (health_check {} false true true (HealthOutcome.value (PyVal.dict []))
      rec_c6).1.consecutive_timeouts = 2 := by
  decide

/-- C6 as amended.  A successful `_safe_call` makes the record healthy
and resets `consecutive_timeouts` and `consecutive_health_failures`
(leaving `consecutive_crashes` untouched); a successful health check
makes the record healthy and resets only
`consecutive_health_failures`. -/
theorem c6_success_resets (cfg : ManagerCfg) (restart_ok : Bool) (r : PRec)
    (v : PyVal) (d : List (String × String)) (hd : r.status ≠ Status.disabled) :
    safe_call cfg false true restart_ok (CallOutcome.ok v) r =
      ({ r with status := Status.healthy, consecutive_timeouts := 0,
                consecutive_health_failures := 0 }, 0, Except.ok v) ∧
    health_check cfg false true restart_ok (HealthOutcome.value (PyVal.dict d)) r =
      ({ r with consecutive_health_failures := 0, status := Status.healthy }, 0) := by
  constructor
  · simp [safe_call, hd]
  · simp [health_check, hd, PyVal.is_dict]

/-- C6 amended witness on `rec_c6`. -/
theorem c6_success_resets_witness :
    safe_call {} false true true (CallOutcome.ok (PyVal.dict [])) rec_c6 =
      ({ rec_c6 with status := Status.healthy, consecutive_timeouts := 0,
                     consecutive_health_failures := 0 }, 0,
       Except.ok (PyVal.dict [])) ∧
    health_check {} false true true (HealthOutcome.value (PyVal.dict [])) rec_c6 =
      ({ rec_c6 with consecutive_health_failures := 0,
                     status := Status.healthy }, 0) :=
  c6_success_resets {} true rec_c6 (PyVal.dict []) [] (by decide)

/-! ### C7: health failures and the adapter unreachable payload -/

/-- A healthy grpc-source record. -/
def rec_c7 : PRec := { status := Status.healthy, source := Source.grpc }

/-- C7 counterexample.  For a grpc-source plugin whose health RPC fails
at the client (the client returns `None` and the adapter lifts it to
the unreachable payload), the health check leaves
`consecutive_health_failures` at 0 and marks the record healthy — the
claimed increment-and-degrade never happens for adapter-backed
plugins. -/
theorem c7_counterexample :
    (health_check {} false true true (HealthOutcome.value (adapter_health none))
      rec_c7).1.consecutive_health_failures = 0 ∧
    (health_check {} false true true (HealthOutcome.value (adapter_health none))
      rec_c7).1.status = Status.healthy := by
  decide

/-- C7 as amended.  For an in-process plugin a health call that raises
increments `consecutive_health_failures`, degrades the record, marks it
unresponsive at the threshold and invokes `_maybe_restart` — which
performs no actual restart for a non-process source; for a process- or
grpc-source plugin (whose health call goes through the adapter, with a
live, non-OOM-killed worker) the adapter converts a client failure into
a successful unreachable payload, so the counter resets and the record
is marked healthy. -/
theorem c7_health_failure_paths (cfg : ManagerCfg) (restart_ok : Bool)
    (r r2 : PRec) (msg : String)
    (h1 : r.source = Source.in_process) (hd1 : r.status ≠ Status.disabled)
    (h2 : r2.source = Source.process ∨ r2.source = Source.grpc)
    (hd2 : r2.status ≠ Status.disabled) :
    (health_check cfg false true restart_ok (HealthOutcome.raised msg)
      r).1.consecutive_health_failures = r.consecutive_health_failures + 1 ∧
    (health_check cfg false true restart_ok (HealthOutcome.raised msg) r).1.status =
      (if cfg.health_restart_threshold ≤ r.consecutive_health_failures + 1
       then Status.unresponsive else Status.degraded) ∧
    (health_check cfg false true restart_ok (HealthOutcome.raised msg) r).2 = 0 ∧
    health_check cfg false true restart_ok (HealthOutcome.value (adapter_health none))
      r2 = ({ r2 with consecutive_health_failures := 0,
                      status := Status.healthy }, 0) := by
  have hsrc : r.source ≠ Source.process := by rw [h1]; simp
  by_cases hthr : cfg.health_restart_threshold ≤ r.consecutive_health_failures + 1
  · refine ⟨?_, ?_, ?_, ?_⟩ <;>
      simp [health_check, hd1, hd2, h1, h2, hthr, maybe_restart, adapter_health,
        PyVal.is_dict]
  · refine ⟨?_, ?_, ?_, ?_⟩ <;>
      simp [health_check, hd1, hd2, h1, h2, hthr, maybe_restart, adapter_health,
        PyVal.is_dict]

/-- An in-process record one failure below the default threshold. -/
def rec_c7b : PRec :=
  { status := Status.healthy, source := Source.in_process,
    consecutive_health_failures := 1 }

/-- A healthy process-source record with one prior health failure. -/
def rec_c7p : PRec :=
  { status := Status.degraded, source := Source.process,
    consecutive_health_failures := 1 }

/-- C7 amended witness: at the default threshold of two, a second
raising health call makes an in-process record unresponsive with no
restart attempt, while a grpc record and a live process record whose
client health RPC fails are both marked healthy with the failure
counter reset. -/
theorem c7_health_failure_paths_witness :
    (health_check {} false true true (HealthOutcome.raised "boom")
      rec_c7b).1.consecutive_health_failures = 2 ∧
    (health_check {} false true true (HealthOutcome.raised "boom") rec_c7b).1.status =
      Status.unresponsive ∧
    (health_check {} false true true (HealthOutcome.raised "boom") rec_c7b).2 = 0 ∧
    health_check {} false true true (HealthOutcome.value (adapter_health none))
      rec_c7 = ({ rec_c7 with consecutive_health_failures := 0,
                              status := Status.healthy }, 0) ∧
    health_check {} false true true (HealthOutcome.value (adapter_health none))
        rec_c7p =
      ({ rec_c7p with consecutive_health_failures := 0, status := Status.healthy },
       0) := by
  have h := c7_health_failure_paths {} true rec_c7b rec_c7 "boom" (by decide)
    (by decide) (by decide) (by decide)
  have hp := c7_health_failure_paths {} true rec_c7b rec_c7p "boom" (by decide)
    (by decide) (by decide) (by decide)
  refine ⟨h.1, ?_, h.2.2.1, h.2.2.2, hp.2.2.2⟩
  have h2 := h.2.1
  simpa using h2

/-! ### C2: every capability operation checks scopes before mutating -/

/-- C2.  For each capability-context operation, a caller whose granted
scope set lacks a required scope receives a permission error and the
host state is returned unchanged — no partial mutation of the identity
store or the event bus is possible. -/
theorem c2_scope_gate (ctx : Ctx) (st : HostState)
    (u d role email : String) (active : Bool) (fh : String)
    (lim offs : Int) (rn rdsc : String) (staff : Bool) (ev : String)
    (pl : List (String × String)) :
    (("users.write" ∉ ctx.scopes ∨ "identity_tags.write" ∉ ctx.scopes) →
      (sync_user ctx st u d role email active fh).2 = st ∧
      is_perm (sync_user ctx st u d role email active fh).1 = true) ∧
    (("users.read" ∉ ctx.scopes ∨ "identity_tags.read" ∉ ctx.scopes) →
      (list_users ctx st d lim offs).2 = st ∧
      is_perm (list_users ctx st d lim offs).1 = true) ∧
    ("roles.read" ∉ ctx.scopes →
      (list_identity_roles ctx st).2 = st ∧
      is_perm (list_identity_roles ctx st).1 = true) ∧
    ("roles.write" ∉ ctx.scopes →
      (upsert_identity_role ctx st rn rdsc staff).2 = st ∧
      is_perm (upsert_identity_role ctx st rn rdsc staff).1 = true) ∧
    ("identity_tags.write" ∉ ctx.scopes →
      (set_identity_tag ctx st u d role).2 = st ∧
      is_perm (set_identity_tag ctx st u d role).1 = true) ∧
    ("events.emit" ∉ ctx.scopes →
      (emit_event ctx st ev pl).2 = st ∧
      is_perm (emit_event ctx st ev pl).1 = true) := by
  refine ⟨?_, ?_, ?_, ?_, ?_, ?_⟩
  · rintro (h | h)
    · simp [sync_user, require_scope, h, is_perm]
    · by_cases h1 : "users.write" ∈ ctx.scopes <;>
        simp [sync_user, require_scope, h, h1, is_perm]
  · rintro (h | h)
    · simp [list_users, require_scope, h, is_perm]
    · by_cases h1 : "users.read" ∈ ctx.scopes <;>
        simp [list_users, require_scope, h, h1, is_perm]
  · intro h
    simp [list_identity_roles, require_scope, h, is_perm]
  · intro h
    simp [upsert_identity_role, require_scope, h, is_perm]
  · intro h
    simp [set_identity_tag, require_scope, h, is_perm]
  · intro h
    simp [emit_event, require_scope, h, is_perm]

/-- A context granted no scopes at all. -/
def ctx_none : Ctx := { plugin_name := "demo", scopes := [] }

/-- C2 witness: with no granted scopes, each of the six operations
returns a permission error and leaves the empty host state unchanged. -/
theorem c2_scope_gate_witness :
    (sync_user ctx_none {} "alice" "db1" "admin" "" true "h").2 = ({} : HostState) ∧
    is_perm (sync_user ctx_none {} "alice" "db1" "admin" "" true "h").1 = true ∧
    (list_users ctx_none {} "db1" 10 0).2 = ({} : HostState) ∧
    is_perm (list_users ctx_none {} "db1" 10 0).1 = true ∧
    (list_identity_roles ctx_none {}).2 = ({} : HostState) ∧
    is_perm (list_identity_roles ctx_none {}).1 = true ∧
    (upsert_identity_role ctx_none {} "ops" "" false).2 = ({} : HostState) ∧
    is_perm (upsert_identity_role ctx_none {} "ops" "" false).1 = true ∧
    (set_identity_tag ctx_none {} "alice" "db1" "admin").2 = ({} : HostState) ∧
    is_perm (set_identity_tag ctx_none {} "alice" "db1" "admin").1 = true ∧
    (emit_event ctx_none {} "evt" []).2 = ({} : HostState) ∧
    is_perm (emit_event ctx_none {} "evt" []).1 = true := by
  obtain ⟨h1, h2, h3, h4, h5, h6⟩ := c2_scope_gate ctx_none {} "alice" "db1" "admin"
    "" true "h" 10 0 "ops" "" false "evt" []
  have g1 := h1 (Or.inl (by decide))
  have g2 := h2 (Or.inl (by decide))
  have g3 := h3 (by decide)
  have g4 := h4 (by decide)
  have g5 := h5 (by decide)
  have g6 := h6 (by decide)
  exact ⟨g1.1, g1.2, g2.1, g2.2, g3.1, g3.2, g4.1, g4.2, g5.1, g5.2, g6.1, g6.2⟩

/-! ### C9: which identifiers actually get normalized -/

/-- A context granted the two scopes `sync_user` requires. -/
def ctx_rw : Ctx := { plugin_name := "p", scopes := ["users.write", "identity_tags.write"] }

/-- A context additionally granted `roles.write`. -/
def ctx_rw2 : Ctx :=
  { plugin_name := "p",
    scopes := ["users.write", "identity_tags.write", "roles.write"] }

/-- C9 counterexample.  `sync_user` stores the role tag
`"admin role!"` — merely stripped and lower-cased — which contains a
space and an exclamation mark, so the stored identifier is not
restricted to the safe character set (the full normalizer would have
produced `"admin-role"`); and it stores the db name `"Clients"`
verbatim — neither lower-cased nor canonicalized to the
`normalize_client_db_name` output `"Clients.db"`, which itself keeps
the upper-case letter. -/
theorem c9_counterexample :
    (sync_user ctx_rw {} "alice" "system.db" "Admin Role!" "" true "h").2.identity_tags =
      [{ db_name := "system.db", username := "alice", role_tag := "admin role!",
         updated_by := "plugin:p" }] ∧
    role_token_normalized "admin role!" = false ∧
    normalize_role_token "Admin Role!" = "admin-role" ∧
    (sync_user ctx_rw {} "bob" "Clients" "user" "" true "h").2.identity_tags =
      [{ db_name := "Clients", username := "bob", role_tag := "user",
         updated_by := "plugin:p" }] ∧
    normalize_client_db_name "Clients" = Except.ok "Clients.db" ∧
    role_token_normalized "Clients" = false := by
  decide

/-- C9 as amended.  `_normalize_role_token` output is always lower-cased
and restricted to the safe character set; `set_identity_tag` stores
exactly that normalized role tag together with the canonical
`_normalize_db_name` output as db name; `upsert_identity_role` stores
the normalized role name; but `sync_user` stores a role tag that is
only stripped and lower-cased (`py_or (py_lower (py_strip _)) "user"`)
and a db name that is only stripped, with no character-set restriction
and no canonicalization. -/
theorem c9_normalization_paths (ctx : Ctx) (st : HostState)
    (u role rn rdsc role2 email s dbn dbn2 cdb : String) (active staff : Bool)
    (fh : String)
    (h1 : "identity_tags.write" ∈ ctx.scopes) (h2 : "users.write" ∈ ctx.scopes)
    (h3 : "roles.write" ∈ ctx.scopes) (hu : py_strip u ≠ "")
    (hdb : normalize_db_name dbn = Except.ok cdb)
    (hkey : (sync_db_key dbn2).isOk = true) :
    role_token_normalized (normalize_role_token s) = true ∧
    (set_identity_tag ctx st u dbn role).1 =
      Except.ok { status := "updated", username := py_strip u,
                  db_name := cdb, role_tag := normalize_role_token role } ∧
    (set_identity_tag ctx st u dbn role).2.identity_tags =
      upsert_tag st.identity_tags cdb (py_strip u) (normalize_role_token role)
        ("plugin:" ++ ctx.plugin_name) ∧
    (upsert_identity_role ctx st rn rdsc staff).1 =
      Except.ok { status := "upserted", name := normalize_role_token rn,
                  is_staff := staff } ∧
    (upsert_identity_role ctx st rn rdsc staff).2.identity_roles =
      upsert_role st.identity_roles (normalize_role_token rn)
        (if py_strip rdsc = "" then none else some (py_strip rdsc)) staff
        ("plugin:" ++ ctx.plugin_name) ∧
    (sync_user ctx st u dbn2 role2 email active fh).2.identity_tags =
      upsert_tag st.identity_tags
        (py_or (py_strip (py_or dbn2 "system.db")) "system.db") (py_strip u)
        (py_or (py_lower (py_strip (py_or role2 "user"))) "user")
        ("plugin:" ++ ctx.plugin_name) := by
  refine ⟨normalize_role_token_normalized s, ?_, ?_, ?_, ?_, ?_⟩
  · simp [set_identity_tag, require_scope, h1, hdb, hu]
  · simp [set_identity_tag, require_scope, h1, hdb, hu]
  · simp [upsert_identity_role, require_scope, h3]
  · simp [upsert_identity_role, require_scope, h3]
  · cases hk : sync_db_key dbn2 with
    | error e =>
        rw [hk] at hkey
        simp [Except.toBool] at hkey
    | ok key =>
        simp [sync_user, require_scope, h1, h2, sync_user_blocking, hu, hk]

/-- C9 amended witness: `set_identity_tag` stores the normalized role
tag and the canonical db name, and `upsert_identity_role` stores the
normalized role name, while `sync_user` (shown in the counterexample)
normalizes neither. -/
theorem c9_normalization_paths_witness :
    role_token_normalized (normalize_role_token "Admin Role!") = true ∧
    (set_identity_tag ctx_rw2 {} "alice" "tenant1" "Admin Role!").1 =
      Except.ok { status := "updated", username := "alice",
                  db_name := "tenant1.db", role_tag := "admin-role" } ∧
    (upsert_identity_role ctx_rw2 {} "Ops Team" "" true).1 =
      Except.ok { status := "upserted", name := "ops-team", is_staff := true } := by
  have h := c9_normalization_paths ctx_rw2 {} "alice" "Admin Role!" "Ops Team" ""
    "user" "" "Admin Role!" "tenant1" "tenant1" "tenant1.db" true true "h"
    (by decide) (by decide) (by decide) (by decide) (by decide) (by decide)
  refine ⟨h.1, ?_, ?_⟩
  · rw [h.2.1]
    decide
  · rw [h.2.2.2.1]
    decide

end NebulaSpec
